import Mathlib

/-!
Verification of the JNI result-translation helpers in
`service/uci/jni/src/helper.rs`: `boolean_result_helper`,
`byte_result_helper` (with its internal `result_to_status_code`), and
`option_result_helper`.  Each helper consumes a `Result<T>` from the UWB
core library together with a context label and produces a
foreign-boundary primitive, logging one diagnostic line on failure.

The helpers are embedded as pure functions returning a pair of the
translated value and the list of diagnostic log lines emitted during the
call (empty on success, a single line on failure).
-/

/-- Modelled from the spec: the error type `uwb_core::error::Error` is repo
code outside the provided fragment.  The spec describes four named error
kinds (bad parameters, max sessions exceeded, command retry requested,
regulatory UWB-off) plus an open-ended bucket of other causes; the
fragment's tests additionally name `DuplicatedSessionId`.  The named kinds
are modelled together with representative unlisted causes. -/
inductive UwbError where
  | badParameters
  | maxSessionsExceeded
  | commandRetry
  | regulationUwbOff
  | duplicatedSessionId
  | timeout
  | unknown
deriving DecidableEq

/-- Rust `{:?}` debug rendering of an error variant, as interpolated into
the diagnostic log line. -/
def errorDebug : UwbError → String
  | .badParameters => "BadParameters"
  | .maxSessionsExceeded => "MaxSessionsExceeded"
  | .commandRetry => "CommandRetry"
  | .regulationUwbOff => "RegulationUwbOff"
  | .duplicatedSessionId => "DuplicatedSessionId"
  | .timeout => "Timeout"
  | .unknown => "Unknown"

/-- Modelled from the spec: the enumeration `uwb_uci_packets::StatusCode`
is repo code outside the provided fragment.  Only the six codes the
translator can produce are modelled (Ok, InvalidParam,
MaxSessionsExceeded, CommandRetry, RegulationUwbOff, Failed). -/
inductive StatusCode where
  | uciStatusOk
  | uciStatusInvalidParam
  | uciStatusMaxSessionsExceeded
  | uciStatusCommandRetry
  | uciStatusRegulationUwbOff
  | uciStatusFailed
deriving DecidableEq

/-- Modelled from the spec: the `u8::from` numeric value of each status
code, per the FiRa UCI status-code table; the spec's invariant is that
every defined code fits an unsigned 8-bit range and stays below 128. -/
def StatusCode.toU8 : StatusCode → Nat
  | .uciStatusOk => 0x00
  | .uciStatusInvalidParam => 0x04
  | .uciStatusMaxSessionsExceeded => 0x14
  | .uciStatusCommandRetry => 0x0A
  | .uciStatusRegulationUwbOff => 0x53
  | .uciStatusFailed => 0x02

/-- JNI `jboolean` is an unsigned 8-bit integer; the Rust `bool` to
`jboolean` conversion `.into()` yields `JNI_TRUE = 1` for `true` and
`JNI_FALSE = 0` for `false`. -/
def jbooleanOfBool (b : Bool) : Nat :=
  if b then 1 else 0

/-- The Rust cast `as i8` applied to an unsigned 8-bit value: a
two's-complement reinterpretation of the low byte (values 0-127 pass
through, 128-255 wrap to negative). -/
def u8_as_i8 (n : Nat) : Int :=
  if n % 256 < 128 then ((n % 256 : Nat) : Int) else ((n % 256 : Nat) : Int) - 256

/-- The diagnostic line emitted by
`error!("{} failed with {:?}", error_msg, &e)`. -/
def logLine (error_msg : String) (e : UwbError) : String :=
  error_msg ++ " failed with " ++ errorDebug e

/-- Embedding of `boolean_result_helper`: on `Ok(_)` the value `true`, on
`Err(e)` log one line and the value `false`; the boolean is then converted
to a `jboolean` via `.into()`. -/
def boolean_result_helper {T : Type} (result : Except UwbError T) (error_msg : String) :
    Nat × List String :=
  match result with
  | .ok _ => (jbooleanOfBool true, [])
  | .error e => (jbooleanOfBool false, [logLine error_msg e])

/-- Embedding of `result_to_status_code`: `map_err` logs one line on the
error path, then the match classifies: `Ok` to `UciStatusOk`, the four
named error variants to their status codes, and every other error to
`UciStatusFailed`. -/
def result_to_status_code {T : Type} (result : Except UwbError T) (error_msg : String) :
    StatusCode × List String :=
  let logs : List String :=
    match result with
    | .ok _ => []
    | .error e => [logLine error_msg e]
  let code : StatusCode :=
    match result with
    | .ok _ => .uciStatusOk
    | .error .badParameters => .uciStatusInvalidParam
    | .error .maxSessionsExceeded => .uciStatusMaxSessionsExceeded
    | .error .commandRetry => .uciStatusCommandRetry
    | .error .regulationUwbOff => .uciStatusRegulationUwbOff
    | .error _ => .uciStatusFailed
  (code, logs)

/-- Embedding of `byte_result_helper`:
`u8::from(result_to_status_code(result, error_msg)) as i8`. -/
def byte_result_helper {T : Type} (result : Except UwbError T) (error_msg : String) :
    Int × List String :=
  let r := result_to_status_code result error_msg
  (u8_as_i8 (StatusCode.toU8 r.1), r.2)

/-- Embedding of `option_result_helper`: `map_err` logs one line on the
error path, then `.ok()` converts the result to an option. -/
def option_result_helper {T : Type} (result : Except UwbError T) (error_msg : String) :
    Option T × List String :=
  match result with
  | .ok v => (some v, [])
  | .error e => (none, [logLine error_msg e])

/-- Every status code the translator can produce has `u8` value below 128. -/
theorem statusCode_toU8_lt_128 : ∀ c : StatusCode, StatusCode.toU8 c < 128 := by
  intro c
  cases c <;> decide

/-- For values below 128 the unsigned-to-signed 8-bit reinterpretation is
the identity embedding into the integers. -/
theorem u8_as_i8_of_lt (n : Nat) (h : n < 128) : u8_as_i8 n = (n : Int) := by
  have h256 : n % 256 = n := Nat.mod_eq_of_lt (lt_trans h (by decide))
  unfold u8_as_i8
  rw [h256]
  simp [h]

/-- C1: `result_to_status_code`, the classification underlying
`byte_result_helper`, maps outcomes exactly per the table: success to Ok,
bad parameters to InvalidParam, max sessions exceeded to
MaxSessionsExceeded, command retry to CommandRetry, regulatory UWB-off to
RegulationUwbOff, and every error variant not explicitly listed to the
generic Failed code. -/
theorem C1_status_code_mapping {T : Type} (label : String) :
    (∀ v : T, (result_to_status_code (Except.ok v) label).1 = StatusCode.uciStatusOk) ∧
    (result_to_status_code (T := T) (Except.error UwbError.badParameters) label).1 =
      StatusCode.uciStatusInvalidParam ∧
    (result_to_status_code (T := T) (Except.error UwbError.maxSessionsExceeded) label).1 =
      StatusCode.uciStatusMaxSessionsExceeded ∧
    (result_to_status_code (T := T) (Except.error UwbError.commandRetry) label).1 =
      StatusCode.uciStatusCommandRetry ∧
    (result_to_status_code (T := T) (Except.error UwbError.regulationUwbOff) label).1 =
      StatusCode.uciStatusRegulationUwbOff ∧
    (∀ e : UwbError, e ≠ UwbError.badParameters → e ≠ UwbError.maxSessionsExceeded →
      e ≠ UwbError.commandRetry → e ≠ UwbError.regulationUwbOff →
      (result_to_status_code (T := T) (Except.error e) label).1 = StatusCode.uciStatusFailed) := by
  refine ⟨fun v => rfl, rfl, rfl, rfl, rfl, ?_⟩
  intro e h1 h2 h3 h4
  cases e with
  | badParameters => exact absurd rfl h1
  | maxSessionsExceeded => exact absurd rfl h2
  | commandRetry => exact absurd rfl h3
  | regulationUwbOff => exact absurd rfl h4
  | duplicatedSessionId => rfl
  | timeout => rfl
  | unknown => rfl

/-- Witness for C1 at `T = Nat`, label `"Test"`: the unlisted error
`DuplicatedSessionId` falls through to the generic Failed code. -/
theorem C1_status_code_mapping_witness :
    (result_to_status_code (T := Nat) (Except.error UwbError.duplicatedSessionId) "Test").1 =
      StatusCode.uciStatusFailed :=
  (C1_status_code_mapping (T := Nat) "Test").2.2.2.2.2 UwbError.duplicatedSessionId
    (by decide) (by decide) (by decide) (by decide)

/-- C2: `boolean_result_helper` returns the JNI true value if and only if
the outcome is a success, for any success payload type. -/
theorem C2_boolean_iff_success {T : Type} (result : Except UwbError T) (label : String) :
    ((boolean_result_helper result label).1 = jbooleanOfBool true ↔
      ∃ v : T, result = Except.ok v) := by
  cases result with
  | ok v => exact ⟨fun _ => ⟨v, rfl⟩, fun _ => rfl⟩
  | error e =>
    constructor
    · intro h
      have h0 : (0 : Nat) = 1 := h
      exact absurd h0 (by decide)
    · rintro ⟨v, hv⟩
      exact Except.noConfusion hv

/-- C3: `option_result_helper` returns `some` holding exactly the original
success payload if and only if the outcome is a success, and returns
`none` for every error variant. -/
theorem C3_option_helper {T : Type} (result : Except UwbError T) (label : String) :
    (∀ v : T, ((option_result_helper result label).1 = some v ↔ result = Except.ok v)) ∧
    (∀ e : UwbError, (option_result_helper (T := T) (Except.error e) label).1 = none) := by
  refine ⟨?_, fun e => rfl⟩
  intro v
  cases result with
  | ok u =>
    constructor
    · intro h
      have h0 : some u = some v := h
      have h' : u = v := Option.some.inj h0
      rw [h']
    · intro h
      have h' : u = v := by injection h
      show some u = some v
      rw [h']
  | error e =>
    constructor
    · intro h
      have h0 : (none : Option T) = some v := h
      exact Option.noConfusion h0
    · intro h
      exact Except.noConfusion h

/-- C4: every status code the classification can produce has `u8` value
below 128, and the unsigned-to-signed 8-bit reinterpretation in
`byte_result_helper` passes the numeric value through unchanged: the
returned byte equals the code's `u8` value and is non-negative. -/
theorem C4_byte_reinterpretation {T : Type} (result : Except UwbError T) (label : String) :
    StatusCode.toU8 (result_to_status_code result label).1 < 128 ∧
    (byte_result_helper result label).1 =
      ((StatusCode.toU8 (result_to_status_code result label).1 : Nat) : Int) ∧
    0 ≤ (byte_result_helper result label).1 := by
  have hlt := statusCode_toU8_lt_128 (result_to_status_code result label).1
  have heq : (byte_result_helper result label).1 =
      ((StatusCode.toU8 (result_to_status_code result label).1 : Nat) : Int) :=
    u8_as_i8_of_lt _ hlt
  refine ⟨hlt, heq, ?_⟩
  rw [heq]
  exact Int.natCast_nonneg _

/-- C5: the three helpers are total over the outcome space: for every
outcome, including unlisted error variants, the boolean is 0 or 1, the
byte is one of the six defined status values, and the option is either
absent or holds the original success payload; no error is propagated. -/
theorem C5_totality {T : Type} (result : Except UwbError T) (label : String) :
    ((boolean_result_helper result label).1 = 0 ∨ (boolean_result_helper result label).1 = 1) ∧
    ((byte_result_helper result label).1 = 0 ∨ (byte_result_helper result label).1 = 4 ∨
     (byte_result_helper result label).1 = 20 ∨ (byte_result_helper result label).1 = 10 ∨
     (byte_result_helper result label).1 = 83 ∨ (byte_result_helper result label).1 = 2) ∧
    ((option_result_helper result label).1 = none ∨
     ∃ v : T, result = Except.ok v ∧ (option_result_helper result label).1 = some v) := by
  rcases result with e | v
  · refine ⟨Or.inl rfl, ?_, Or.inl rfl⟩
    cases e with
    | badParameters => exact Or.inr (Or.inl rfl)
    | maxSessionsExceeded => exact Or.inr (Or.inr (Or.inl rfl))
    | commandRetry => exact Or.inr (Or.inr (Or.inr (Or.inl rfl)))
    | regulationUwbOff => exact Or.inr (Or.inr (Or.inr (Or.inr (Or.inl rfl))))
    | duplicatedSessionId => exact Or.inr (Or.inr (Or.inr (Or.inr (Or.inr rfl))))
    | timeout => exact Or.inr (Or.inr (Or.inr (Or.inr (Or.inr rfl))))
    | unknown => exact Or.inr (Or.inr (Or.inr (Or.inr (Or.inr rfl))))
  · exact ⟨Or.inr rfl, Or.inl rfl, Or.inr ⟨v, rfl, rfl⟩⟩

/-- C6: each helper emits exactly one error-level diagnostic of the form
`<label> failed with <error-detail>` when the outcome is an error, and no
diagnostic when the outcome is a success. -/
theorem C6_logging {T : Type} (v : T) (e : UwbError) (label : String) :
    (boolean_result_helper (Except.ok v) label).2 = [] ∧
    (byte_result_helper (Except.ok v) label).2 = [] ∧
    (option_result_helper (Except.ok v) label).2 = [] ∧
    (boolean_result_helper (T := T) (Except.error e) label).2 =
      [label ++ " failed with " ++ errorDebug e] ∧
    (byte_result_helper (T := T) (Except.error e) label).2 =
      [label ++ " failed with " ++ errorDebug e] ∧
    (option_result_helper (T := T) (Except.error e) label).2 =
      [label ++ " failed with " ++ errorDebug e] :=
  ⟨rfl, rfl, rfl, rfl, rfl, rfl⟩

/-- C7: the context label has no influence on the returned value: each
helper returns the same value for any two labels on the same outcome. -/
theorem C7_label_no_influence {T : Type} (result : Except UwbError T) (l1 l2 : String) :
    (boolean_result_helper result l1).1 = (boolean_result_helper result l2).1 ∧
    (byte_result_helper result l1).1 = (byte_result_helper result l2).1 ∧
    (option_result_helper result l1).1 = (option_result_helper result l2).1 := by
  rcases result with e | v
  · exact ⟨rfl, rfl, rfl⟩
  · exact ⟨rfl, rfl, rfl⟩

/-- C8: each helper is deterministic in its return value: two calls with
the same outcome and the same label return the same value. -/
theorem C8_deterministic {T : Type} (result : Except UwbError T) (label : String) :
    (boolean_result_helper result label).1 = (boolean_result_helper result label).1 ∧
    (byte_result_helper result label).1 = (byte_result_helper result label).1 ∧
    (option_result_helper result label).1 = (option_result_helper result label).1 :=
  ⟨rfl, rfl, rfl⟩

/-- C9: the three helpers agree on success classification: the boolean is
the JNI true value exactly when the option is present, and exactly when
the byte equals the reinterpreted numeric value of the Ok status code; no
error variant is ever mapped to the Ok code. -/
theorem C9_agreement {T : Type} (result : Except UwbError T) (label : String) :
    ((boolean_result_helper result label).1 = 1 ↔
      ((option_result_helper result label).1).isSome = true) ∧
    ((boolean_result_helper result label).1 = 1 ↔
      (byte_result_helper result label).1 = u8_as_i8 (StatusCode.toU8 StatusCode.uciStatusOk)) := by
  rcases result with e | v
  · constructor
    · constructor
      · intro h
        have h0 : (0 : Nat) = 1 := h
        exact absurd h0 (by decide)
      · intro h
        have h0 : (false : Bool) = true := h
        exact absurd h0 (by decide)
    · constructor
      · intro h
        have h0 : (0 : Nat) = 1 := h
        exact absurd h0 (by decide)
      · intro h
        cases e with
        | badParameters => exact absurd (show (4 : Int) = 0 from h) (by decide)
        | maxSessionsExceeded => exact absurd (show (20 : Int) = 0 from h) (by decide)
        | commandRetry => exact absurd (show (10 : Int) = 0 from h) (by decide)
        | regulationUwbOff => exact absurd (show (83 : Int) = 0 from h) (by decide)
        | duplicatedSessionId => exact absurd (show (2 : Int) = 0 from h) (by decide)
        | timeout => exact absurd (show (2 : Int) = 0 from h) (by decide)
        | unknown => exact absurd (show (2 : Int) = 0 from h) (by decide)
  · exact ⟨⟨fun _ => rfl, fun _ => rfl⟩, ⟨fun _ => rfl, fun _ => rfl⟩⟩

/-- C10: `boolean_result_helper` returns the `jboolean` numeric value 1
(JNI_TRUE) on every success and 0 (JNI_FALSE) on every error, and no
other value. -/
theorem C10_jboolean_values {T : Type} (v : T) (e : UwbError) (label : String) :
    (boolean_result_helper (Except.ok v) label).1 = 1 ∧
    (boolean_result_helper (T := T) (Except.error e) label).1 = 0 :=
  ⟨rfl, rfl⟩
